import Mathlib

/-!
Verification development for the figma-technical-advisor plugin sources
(src/claude-api.ts, src/design-extractor-simple.ts, src/types.ts).

The TypeScript sources are embedded shallowly:
* JSON values are modelled by the inductive type `Json`, with JavaScript
  numbers modelled as exact rationals.
* The scene graph supplied by the host document is modelled by `FigNode`
  (a node and its subtree) together with explicit ancestor chains
  (`Anc`), since the source walks `node.parent` pointers.
* Fallible code (`throw` in TypeScript) is modelled with `Except`.
-/

/-- A JSON value.  JavaScript numbers are modelled as exact rationals:
every numeric literal appearing in the sources is small and exactly
representable, so no floating-point rounding is observable here. -/
inductive Json where
  | null : Json
  | bool (b : Bool) : Json
  | num (q : ℚ) : Json
  | str (s : String) : Json
  | arr (elems : List Json) : Json
  | obj (fields : List (String × Json)) : Json

/-- JavaScript truthiness of a JSON value: `null`, `false`, `0` and the
empty string are falsy; every array and object is truthy. -/
def jsTruthy : Json → Bool
  | .null => false
  | .bool b => b
  | .num q => q != 0
  | .str s => s != ""
  | .arr _ => true
  | .obj _ => true

/-- JavaScript property access `o[k]` on a parsed JSON object: with
duplicate keys, `JSON.parse` keeps the last occurrence, so lookup is on
the reversed field list. -/
def jLookup (fields : List (String × Json)) (k : String) : Option Json :=
  fields.reverse.lookup k

/-- The JavaScript expression `v || d` used by the response validator:
the left operand when truthy, otherwise the default.  `none` models a
missing property (`undefined`). -/
def jsOr (v : Option Json) (dflt : Json) : Json :=
  match v with
  | some x => if jsTruthy x then x else dflt
  | none => dflt

/-- JavaScript `String.prototype.startsWith`. -/
def jsStartsWith (s pre : String) : Bool :=
  pre.data.isPrefixOf s.data

/-- JavaScript `String.prototype.toLowerCase` (all source patterns are
ASCII, where `Char.toLower` agrees with JavaScript). -/
def jsToLower (s : String) : String :=
  ⟨s.data.map Char.toLower⟩

/-- Substring containment, the semantics of testing one alternative of
the regular expression `/button|btn|.../` against a string. -/
def strContains (hay pat : String) : Bool :=
  (List.range (hay.length + 1)).any (fun i => pat.data.isPrefixOf (hay.data.drop i))

/-! ## A model of `JSON.parse`

`parseClaudeResponse` feeds the located `{...}` span to `JSON.parse`.
The parser below implements the JSON grammar (RFC 8259) over character
lists, with explicit fuel for termination; numbers are parsed exactly
into `ℚ`. -/

/-- JSON whitespace. -/
def isJsonWs (c : Char) : Bool :=
  c = ' ' || c = '\n' || c = '\r' || c = '\t'

/-- Drop leading JSON whitespace. -/
def skipWs (l : List Char) : List Char :=
  l.dropWhile isJsonWs

/-- Value of a hexadecimal digit. -/
def hexVal (c : Char) : Option Nat :=
  if c.isDigit then some (c.toNat - 48)
  else if 'a' ≤ c ∧ c ≤ 'f' then some (c.toNat - 87)
  else if 'A' ≤ c ∧ c ≤ 'F' then some (c.toNat - 55)
  else none

/-- Parse the body of a JSON string after the opening quote, returning
the decoded content and the input remaining after the closing quote. -/
def parseStringBody : Nat → List Char → Option (String × List Char)
  | 0, _ => none
  | _, [] => none
  | fuel + 1, c :: rest =>
    if c = '"' then some ("", rest)
    else if c = '\\' then
      match rest with
      | [] => none
      | e :: rest2 =>
        let esc : Option (Char × List Char) :=
          if e = '"' then some ('"', rest2)
          else if e = '\\' then some ('\\', rest2)
          else if e = '/' then some ('/', rest2)
          else if e = 'b' then some ('\x08', rest2)
          else if e = 'f' then some ('\x0c', rest2)
          else if e = 'n' then some ('\n', rest2)
          else if e = 'r' then some ('\r', rest2)
          else if e = 't' then some ('\t', rest2)
          else if e = 'u' then
            match rest2 with
            | a :: b :: c2 :: d :: rest3 =>
              match hexVal a, hexVal b, hexVal c2, hexVal d with
              | some va, some vb, some vc, some vd =>
                some (Char.ofNat (va * 4096 + vb * 256 + vc * 16 + vd), rest3)
              | _, _, _, _ => none
            | _ => none
          else none
        match esc with
        | some (ch, r) => (parseStringBody fuel r).map (fun p => (⟨ch :: p.1.data⟩, p.2))
        | none => none
    else if c.toNat < 32 then none
    else (parseStringBody fuel rest).map (fun p => (⟨c :: p.1.data⟩, p.2))

/-- Parse a non-empty run of decimal digits, returning its value, its
length, and the rest of the input. -/
def parseDigits (l : List Char) : Option (Nat × Nat × List Char) :=
  let p := l.span Char.isDigit
  if p.1.isEmpty then none
  else some (p.1.foldl (fun a c => a * 10 + (c.toNat - 48)) 0, p.1.length, p.2)

/-- Parse a JSON number (sign, integer part without superfluous leading
zeros, optional fraction, optional exponent) into an exact rational. -/
def parseNumber (l : List Char) : Option (ℚ × List Char) := do
  let (neg, l1) := match l with
    | '-' :: r => (true, r)
    | _ => (false, l)
  let (ip, icount, l2) ← parseDigits l1
  if icount > 1 ∧ l1.head? = some '0' then none else
  let (frac, l3) ← (match l2 with
    | '.' :: r => (parseDigits r).map (fun p => (((p.1 : ℚ) / ((10 : ℚ) ^ p.2.1)), p.2.2))
    | _ => some ((0 : ℚ), l2) : Option (ℚ × List Char))
  let (scale, l4) ← (match l3 with
    | e :: r =>
      if e = 'e' ∨ e = 'E' then
        let (eneg, r1) := match r with
          | '-' :: r2 => (true, r2)
          | '+' :: r2 => (false, r2)
          | _ => (false, r)
        (parseDigits r1).map (fun p =>
          (if eneg then ((1 : ℚ) / ((10 : ℚ) ^ p.1)) else ((10 : ℚ) ^ p.1), p.2.2))
      else some ((1 : ℚ), l3)
    | _ => some ((1 : ℚ), l3) : Option (ℚ × List Char))
  let mag : ℚ := ((ip : ℚ) + frac) * scale
  pure (if neg then -mag else mag, l4)

/-- Expect the given literal characters at the head of the input. -/
def expectChars : List Char → List Char → Option (List Char)
  | [], l => some l
  | p :: ps, c :: l => if c = p then expectChars ps l else none
  | _ :: _, [] => none

mutual
/-- Parse one JSON value (after optional leading whitespace). -/
def parseValue : Nat → List Char → Option (Json × List Char)
  | 0, _ => none
  | fuel + 1, l =>
    match skipWs l with
    | [] => none
    | c :: rest =>
      if c = '"' then (parseStringBody fuel rest).map (fun p => (.str p.1, p.2))
      else if c = '\x7b' then parseObjBody fuel rest
      else if c = '[' then parseArrBody fuel rest
      else if c = 't' then (expectChars ['r', 'u', 'e'] rest).map (fun r => (.bool true, r))
      else if c = 'f' then (expectChars ['a', 'l', 's', 'e'] rest).map (fun r => (.bool false, r))
      else if c = 'n' then (expectChars ['u', 'l', 'l'] rest).map (fun r => (.null, r))
      else (parseNumber (c :: rest)).map (fun p => (.num p.1, p.2))

/-- Parse the members of a JSON object after the opening brace. -/
def parseObjBody : Nat → List Char → Option (Json × List Char)
  | 0, _ => none
  | fuel + 1, l =>
    match skipWs l with
    | '\x7d' :: rest => some (.obj [], rest)
    | _ => (parseMembers fuel l).map (fun p => (.obj p.1, p.2))

/-- Parse one or more comma-separated `"key": value` members and the
closing brace. -/
def parseMembers : Nat → List Char → Option (List (String × Json) × List Char)
  | 0, _ => none
  | fuel + 1, l => do
    let l1 := skipWs l
    let (k, l2) ← (match l1 with
      | '"' :: r => parseStringBody fuel r
      | _ => none)
    let l3 := skipWs l2
    let l4 ← (match l3 with
      | ':' :: r => some r
      | _ => none)
    let (v, l5) ← parseValue fuel l4
    match skipWs l5 with
    | ',' :: r => (parseMembers fuel r).map (fun p => ((k, v) :: p.1, p.2))
    | '\x7d' :: r => some ([(k, v)], r)
    | _ => none

/-- Parse the elements of a JSON array after the opening bracket. -/
def parseArrBody : Nat → List Char → Option (Json × List Char)
  | 0, _ => none
  | fuel + 1, l =>
    match skipWs l with
    | ']' :: rest => some (.arr [], rest)
    | _ => (parseElements fuel l).map (fun p => (.arr p.1, p.2))

/-- Parse one or more comma-separated array elements and the closing
bracket. -/
def parseElements : Nat → List Char → Option (List Json × List Char)
  | 0, _ => none
  | fuel + 1, l => do
    let (v, l1) ← parseValue fuel l
    match skipWs l1 with
    | ',' :: r => (parseElements fuel r).map (fun p => (v :: p.1, p.2))
    | ']' :: r => some ([v], r)
    | _ => none
end

/-- The model of `JSON.parse`: the whole input must be one JSON value
surrounded by nothing but whitespace. -/
def jsonParse (s : String) : Option Json :=
  match parseValue (s.length + 1) s.data with
  | some (v, rest) => if (skipWs rest).isEmpty then some v else none
  | none => none

/-! ## Data model (types.ts)

The record types produced by the extractor.  TypeScript `number` fields
are modelled as `ℚ` where the source stores host-supplied measurements
and as `ℕ` where the source computes counts or scores with integer
arithmetic; optional fields become `Option`. -/

/-- RGB color with components in [0,1]. -/
structure RGB where
  r : ℚ
  g : ℚ
  b : ℚ

structure LayoutConstraints where
  horizontal : String
  vertical : String

structure Dimensions where
  width : ℚ
  height : ℚ
  x : ℚ
  y : ℚ

structure Padding where
  top : ℚ
  right : ℚ
  bottom : ℚ
  left : ℚ

structure AutoLayoutData where
  mode : String
  spacing : ℚ
  padding : Padding
  counterAxisSizingMode : String
  primaryAxisSizingMode : String

structure Fill where
  type : String
  color : Option RGB
  opacity : Option ℚ
  imageRef : Option String

structure FontName where
  family : String
  style : String

structure TextData where
  characters : String
  fontName : FontName
  fontSize : ℚ
  fontWeight : ℚ
  lineHeight : ℚ
  letterSpacing : ℚ
  fills : List Fill

/-- One extracted node record.  Recursive through `children`, hence an
inductive type with projection functions. -/
inductive NodeData where
  | mk (id name type : String) (visible locked : Bool)
       (constraints : LayoutConstraints) (dimensions : Dimensions)
       (autoLayout : Option AutoLayoutData) (fills : Option (List Fill))
       (text : Option TextData) (children : Option (List NodeData))

def NodeData.id : NodeData → String
  | .mk i _ _ _ _ _ _ _ _ _ _ => i

def NodeData.name : NodeData → String
  | .mk _ n _ _ _ _ _ _ _ _ _ => n

def NodeData.type : NodeData → String
  | .mk _ _ t _ _ _ _ _ _ _ _ => t

def NodeData.visible : NodeData → Bool
  | .mk _ _ _ v _ _ _ _ _ _ _ => v

def NodeData.locked : NodeData → Bool
  | .mk _ _ _ _ l _ _ _ _ _ _ => l

def NodeData.constraints : NodeData → LayoutConstraints
  | .mk _ _ _ _ _ c _ _ _ _ _ => c

def NodeData.dimensions : NodeData → Dimensions
  | .mk _ _ _ _ _ _ d _ _ _ _ => d

def NodeData.autoLayout : NodeData → Option AutoLayoutData
  | .mk _ _ _ _ _ _ _ a _ _ _ => a

def NodeData.fills : NodeData → Option (List Fill)
  | .mk _ _ _ _ _ _ _ _ f _ _ => f

def NodeData.text : NodeData → Option TextData
  | .mk _ _ _ _ _ _ _ _ _ t _ => t

def NodeData.children : NodeData → Option (List NodeData)
  | .mk _ _ _ _ _ _ _ _ _ _ c => c

structure PageData where
  id : String
  name : String
  type : String
  width : Option ℚ
  height : Option ℚ
  children : List NodeData

structure ComplexityScore where
  structure_ : ℕ
  interactions : ℕ
  variants : ℕ
  overall : ℕ

structure VariantData where
  name : String
  properties : List (String × String)

structure ComponentProperty where
  name : String
  type : String
  defaultValue : Json
  variantOptions : Option (List String)

structure ComponentData where
  id : String
  name : String
  description : String
  type : String
  variants : List VariantData
  properties : List ComponentProperty
  instances : ℕ
  complexity : ComplexityScore

structure InstanceData where
  id : String
  componentId : String
  overrides : List (String × Json)
  isNested : Bool
  depth : ℕ

structure ColorToken where
  name : String
  value : RGB
  usage : ℕ

structure TypographyToken where
  name : String
  fontFamily : String
  fontSize : ℚ
  fontWeight : ℕ
  lineHeight : ℚ
  usage : ℕ

structure SpacingToken where
  name : String
  value : ℚ
  usage : ℕ

/-- The first effect of a host effect style, copied verbatim into the
`properties` field of an `EffectToken`. -/
structure HostEffect where
  type : String
  visible : Bool
  radius : Option ℚ

structure EffectToken where
  name : String
  type : String
  properties : Option HostEffect
  usage : ℕ

structure TokenUsageStats where
  systemTokens : ℕ
  customValues : ℕ
  consistencyScore : ℚ

structure DesignTokens where
  colors : List ColorToken
  typography : List TypographyToken
  spacing : List SpacingToken
  effects : List EffectToken
  usage : TokenUsageStats

structure AccessibilityData where
  hasAltText : Bool
  focusable : Bool
  ariaLabel : Option String

structure InteractiveElement where
  id : String
  type : String
  states : List String
  actions : List String
  accessibility : AccessibilityData

structure LayoutComplexity where
  nestingDepth : ℕ
  autoLayoutUsage : ℕ
  constraintPatterns : List String
  responsiveElements : ℕ
  score : ℚ

structure BreakpointData where
  name : String
  width : ℚ
  adaptations : List String

structure ResponsiveBehavior where
  breakpoints : List BreakpointData
  adaptiveComponents : List String
  contentReflow : List String

structure ImageSnapshot where
  id : String
  description : String
  data : String
  context : String

structure DesignAnalysisData where
  pages : List PageData
  components : List ComponentData
  instances : List InstanceData
  styles : DesignTokens
  interactions : List InteractiveElement
  layout : LayoutComplexity
  responsive : ResponsiveBehavior
  images : Option (List ImageSnapshot)

/-! ## Response validation (claude-api.ts, parseClaudeResponse)

The TypeScript result type `ClaudeAnalysisResponse` is erased at
runtime: `parseClaudeResponse` returns whatever JSON values the parsed
span carried, so the faithful runtime model keeps each of the six
fields as a `Json` value. -/

structure ClaudeAnalysisResponse where
  feasibility : Json
  effort : Json
  coordination : Json
  recommendations : Json
  risks : Json
  confidence : Json

/-- Documented default substituted for a missing `feasibility` field. -/
def defaultFeasibility : Json :=
  .obj [("score", .num 5), ("technical", .str "Analysis incomplete"),
        ("challenges", .arr []), ("alternatives", .arr [])]

/-- Documented default substituted for a missing `effort` field. -/
def defaultEffort : Json :=
  .obj [("hours", .num 0), ("storyPoints", .num 0),
        ("complexity", .str "medium"), ("breakdown", .arr [])]

/-- Documented default substituted for a missing `coordination` field. -/
def defaultCoordination : Json :=
  .obj [("teams", .arr []), ("dependencies", .arr []),
        ("timeline", .str "Unknown"), ("criticalPath", .arr [])]

/-- The validate-and-default stage of `parseClaudeResponse`: each of the
six top-level fields is taken from the parsed object with `||`, so a
missing or falsy value is replaced by its documented default. -/
def validateAnalysis (parsed : List (String × Json)) : ClaudeAnalysisResponse where
  feasibility := jsOr (jLookup parsed "feasibility") defaultFeasibility
  effort := jsOr (jLookup parsed "effort") defaultEffort
  coordination := jsOr (jLookup parsed "coordination") defaultCoordination
  recommendations := jsOr (jLookup parsed "recommendations") (.arr [])
  risks := jsOr (jLookup parsed "risks") (.arr [])
  confidence := jsOr (jLookup parsed "confidence") (.num 0.5)

/-- The span located by `responseText.match(/\x7b[\s\S]*\x7d/)`: the
greedy match runs from the first opening brace to the last closing
brace, and exists exactly when the last closing brace lies strictly
after the first opening brace. -/
def locateSpan (s : String) : Option String :=
  match s.data.findIdx? (fun c => c = '\x7b'), s.data.reverse.findIdx? (fun c => c = '\x7d') with
  | some i, some jr =>
    let j := s.data.length - 1 - jr
    if i < j then some ⟨(s.data.drop i).take (j - i + 1)⟩ else none
  | _, _ => none

/-- The two distinct failures thrown inside the `try` block of
`parseClaudeResponse`: the explicit `No valid JSON found in Claude
response` error, and the error thrown by `JSON.parse`. -/
inductive TryFailure where
  | noJsonFound : TryFailure
  | jsonParseError : TryFailure
deriving DecidableEq

/-- The body of the `try` block of `parseClaudeResponse`: locate the
span, parse it, validate with defaults.  A span that begins with a
brace can only parse successfully as an object; the `some _` fallback
(property access on a primitive yields `undefined` in JavaScript, hence
all defaults) is unreachable. -/
def parseClaudeResponseBody (responseText : String) : Except TryFailure ClaudeAnalysisResponse :=
  match locateSpan responseText with
  | none => .error .noJsonFound
  | some span =>
    match jsonParse span with
    | some (.obj fields) => .ok (validateAnalysis fields)
    | some _ => .ok (validateAnalysis [])
    | none => .error .jsonParseError

/-- `parseClaudeResponse`: the surrounding `catch` block replaces
whichever error was thrown inside the `try` block with the single
message `Invalid response format from Claude API`. -/
def parseClaudeResponse (responseText : String) : Except String ClaudeAnalysisResponse :=
  match parseClaudeResponseBody responseText with
  | .ok r => .ok r
  | .error _ => .error "Invalid response format from Claude API"

/-- `ClaudeAPIService.isValidApiKey`: prefix `sk-ant-` and more than 20
characters. -/
def isValidApiKey (apiKey : String) : Bool :=
  jsStartsWith apiKey "sk-ant-" && decide (apiKey.length > 20)

/-! ## Serialization (the `JSON.stringify(designData, null, 2)` call in
`buildAnalysisPrompt`)

`stringifyJson` renders a `Json` value with two-space indentation, as
`JSON.stringify` does with indent argument 2; the `toJson` encoders
below mirror the insertion order of the object literals that build each
record in the sources, and omit `undefined` (here: `none`) members,
which `JSON.stringify` skips. -/

/-- A run of spaces. -/
def spaces (n : Nat) : String :=
  ⟨List.replicate n ' '⟩

/-- One lowercase hexadecimal digit. -/
def hexDigit (n : Nat) : String :=
  ⟨[(if n < 10 then Char.ofNat (48 + n) else Char.ofNat (87 + n))]⟩

/-- Escape one character for a JSON string literal. -/
def escapeJsonChar (c : Char) : String :=
  if c = '"' then "\\\""
  else if c = '\\' then "\\\\"
  else if c = '\n' then "\\n"
  else if c = '\r' then "\\r"
  else if c = '\t' then "\\t"
  else if c = '\x08' then "\\b"
  else if c = '\x0c' then "\\f"
  else if c.toNat < 32 then "\\u00" ++ hexDigit (c.toNat / 16) ++ hexDigit (c.toNat % 16)
  else ⟨[c]⟩

/-- Escape a string for a JSON string literal. -/
def escapeJson (s : String) : String :=
  String.join (s.data.map escapeJsonChar)

/-- Decimal rendering of a rational, as JavaScript prints the numbers
that occur here: integers without a point, other values by their exact
finite decimal expansion.  (A rational with no finite decimal expansion
cannot arise from the measurements serialized by this plugin; the
fraction fallback marks that unreachable case.) -/
def ratToJsStr (q : ℚ) : String :=
  if q.den = 1 then toString q.num
  else
    match (List.range 40).find? (fun k => (q * ((10 : ℚ) ^ k)).den = 1) with
    | some k =>
      let n := (q * ((10 : ℚ) ^ k)).num
      let sign := if n < 0 then "-" else ""
      let ds := toString n.natAbs
      let ds := if ds.length ≤ k then ⟨List.replicate (k + 1 - ds.length) '0'⟩ ++ ds else ds
      sign ++ ⟨ds.data.take (ds.length - k)⟩ ++ "." ++ ⟨ds.data.drop (ds.length - k)⟩
    | none => toString q.num ++ "/" ++ toString q.den

mutual
/-- Render a `Json` value at the given indentation, in the layout of
`JSON.stringify` with indent 2. -/
def stringifyJson : Nat → Json → String
  | _, .null => "null"
  | _, .bool b => if b then "true" else "false"
  | _, .num q => ratToJsStr q
  | _, .str s => "\"" ++ escapeJson s ++ "\""
  | ind, .arr es =>
    match es with
    | [] => "[]"
    | _ => "[\n" ++ stringifyElems (ind + 2) es ++ "\n" ++ spaces ind ++ "]"
  | ind, .obj fs =>
    match fs with
    | [] => "\x7b\x7d"
    | _ => "\x7b\n" ++ stringifyFields (ind + 2) fs ++ "\n" ++ spaces ind ++ "\x7d"

/-- Render array elements, one per line. -/
def stringifyElems : Nat → List Json → String
  | _, [] => ""
  | ind, [e] => spaces ind ++ stringifyJson ind e
  | ind, e :: es => spaces ind ++ stringifyJson ind e ++ ",\n" ++ stringifyElems ind es

/-- Render object members, one per line. -/
def stringifyFields : Nat → List (String × Json) → String
  | _, [] => ""
  | ind, [(k, v)] => spaces ind ++ "\"" ++ escapeJson k ++ "\": " ++ stringifyJson ind v
  | ind, (k, v) :: fs =>
    spaces ind ++ "\"" ++ escapeJson k ++ "\": " ++ stringifyJson ind v ++ ",\n" ++
      stringifyFields ind fs
end

def RGB.toJson (c : RGB) : Json :=
  .obj [("r", .num c.r), ("g", .num c.g), ("b", .num c.b)]

/-- Serialize one mapped fill, in the literal order `type`, `color`,
`opacity` (with `undefined` members omitted). -/
def Fill.toJson (f : Fill) : Json :=
  .obj ([("type", .str f.type)]
    ++ (match f.color with
        | some c => [("color", c.toJson)]
        | none => [])
    ++ (match f.opacity with
        | some o => [("opacity", .num o)]
        | none => [])
    ++ (match f.imageRef with
        | some r => [("imageRef", .str r)]
        | none => []))

def FontName.toJson (f : FontName) : Json :=
  .obj [("family", .str f.family), ("style", .str f.style)]

def TextData.toJson (t : TextData) : Json :=
  .obj [("characters", .str t.characters), ("fontName", t.fontName.toJson),
        ("fontSize", .num t.fontSize), ("fontWeight", .num t.fontWeight),
        ("lineHeight", .num t.lineHeight), ("letterSpacing", .num t.letterSpacing),
        ("fills", .arr (t.fills.map Fill.toJson))]

def Padding.toJson (p : Padding) : Json :=
  .obj [("top", .num p.top), ("right", .num p.right),
        ("bottom", .num p.bottom), ("left", .num p.left)]

def AutoLayoutData.toJson (a : AutoLayoutData) : Json :=
  .obj [("mode", .str a.mode), ("spacing", .num a.spacing),
        ("padding", a.padding.toJson),
        ("counterAxisSizingMode", .str a.counterAxisSizingMode),
        ("primaryAxisSizingMode", .str a.primaryAxisSizingMode)]

def LayoutConstraints.toJson (c : LayoutConstraints) : Json :=
  .obj [("horizontal", .str c.horizontal), ("vertical", .str c.vertical)]

def Dimensions.toJson (d : Dimensions) : Json :=
  .obj [("width", .num d.width), ("height", .num d.height),
        ("x", .num d.x), ("y", .num d.y)]

mutual
/-- Serialize one node record, keys in the assignment order of
`extractNodeHierarchy`. -/
def NodeData.toJson : NodeData → Json
  | .mk id name type visible locked constraints dimensions autoLayout fills text children =>
    .obj ([("id", .str id), ("name", .str name), ("type", .str type),
           ("visible", .bool visible), ("locked", .bool locked),
           ("constraints", constraints.toJson), ("dimensions", dimensions.toJson)]
      ++ (match autoLayout with
          | some a => [("autoLayout", a.toJson)]
          | none => [])
      ++ (match fills with
          | some fs => [("fills", .arr (fs.map Fill.toJson))]
          | none => [])
      ++ (match text with
          | some t => [("text", t.toJson)]
          | none => [])
      ++ (match children with
          | some cs => [("children", .arr (NodeData.listToJson cs))]
          | none => []))

/-- Serialize a list of node records. -/
def NodeData.listToJson : List NodeData → List Json
  | [] => []
  | n :: ns => n.toJson :: NodeData.listToJson ns
end

def PageData.toJson (p : PageData) : Json :=
  .obj [("id", .str p.id), ("name", .str p.name), ("type", .str p.type),
        ("width", match p.width with
          | some w => .num w
          | none => .null),
        ("height", match p.height with
          | some h => .num h
          | none => .null),
        ("children", .arr (NodeData.listToJson p.children))]

def ComplexityScore.toJson (c : ComplexityScore) : Json :=
  .obj [("structure", .num c.structure_), ("interactions", .num c.interactions),
        ("variants", .num c.variants), ("overall", .num c.overall)]

def VariantData.toJson (v : VariantData) : Json :=
  .obj [("name", .str v.name), ("properties", .obj (v.properties.map (fun p => (p.1, .str p.2))))]

def ComponentProperty.toJson (p : ComponentProperty) : Json :=
  .obj ([("name", .str p.name), ("type", .str p.type), ("defaultValue", p.defaultValue)]
    ++ (match p.variantOptions with
        | some os => [("variantOptions", .arr (os.map Json.str))]
        | none => []))

def ComponentData.toJson (c : ComponentData) : Json :=
  .obj [("id", .str c.id), ("name", .str c.name), ("description", .str c.description),
        ("type", .str c.type), ("variants", .arr (c.variants.map VariantData.toJson)),
        ("properties", .arr (c.properties.map ComponentProperty.toJson)),
        ("instances", .num c.instances), ("complexity", c.complexity.toJson)]

def InstanceData.toJson (i : InstanceData) : Json :=
  .obj [("id", .str i.id), ("componentId", .str i.componentId),
        ("overrides", .obj i.overrides), ("isNested", .bool i.isNested),
        ("depth", .num i.depth)]

def ColorToken.toJson (t : ColorToken) : Json :=
  .obj [("name", .str t.name), ("value", t.value.toJson), ("usage", .num t.usage)]

def TypographyToken.toJson (t : TypographyToken) : Json :=
  .obj [("name", .str t.name), ("fontFamily", .str t.fontFamily),
        ("fontSize", .num t.fontSize), ("fontWeight", .num t.fontWeight),
        ("lineHeight", .num t.lineHeight), ("usage", .num t.usage)]

def SpacingToken.toJson (t : SpacingToken) : Json :=
  .obj [("name", .str t.name), ("value", .num t.value), ("usage", .num t.usage)]

def HostEffect.toJson (e : HostEffect) : Json :=
  .obj ([("type", .str e.type), ("visible", .bool e.visible)]
    ++ (match e.radius with
        | some r => [("radius", .num r)]
        | none => []))

def EffectToken.toJson (t : EffectToken) : Json :=
  .obj [("name", .str t.name), ("type", .str t.type),
        ("properties", match t.properties with
          | some e => e.toJson
          | none => .obj []),
        ("usage", .num t.usage)]

def TokenUsageStats.toJson (u : TokenUsageStats) : Json :=
  .obj [("systemTokens", .num u.systemTokens), ("customValues", .num u.customValues),
        ("consistencyScore", .num u.consistencyScore)]

def DesignTokens.toJson (d : DesignTokens) : Json :=
  .obj [("colors", .arr (d.colors.map ColorToken.toJson)),
        ("typography", .arr (d.typography.map TypographyToken.toJson)),
        ("spacing", .arr (d.spacing.map SpacingToken.toJson)),
        ("effects", .arr (d.effects.map EffectToken.toJson)),
        ("usage", d.usage.toJson)]

def AccessibilityData.toJson (a : AccessibilityData) : Json :=
  .obj ([("hasAltText", .bool a.hasAltText), ("focusable", .bool a.focusable)]
    ++ (match a.ariaLabel with
        | some l => [("ariaLabel", .str l)]
        | none => []))

def InteractiveElement.toJson (e : InteractiveElement) : Json :=
  .obj [("id", .str e.id), ("type", .str e.type),
        ("states", .arr (e.states.map Json.str)),
        ("actions", .arr (e.actions.map Json.str)),
        ("accessibility", e.accessibility.toJson)]

def LayoutComplexity.toJson (l : LayoutComplexity) : Json :=
  .obj [("nestingDepth", .num l.nestingDepth), ("autoLayoutUsage", .num l.autoLayoutUsage),
        ("constraintPatterns", .arr (l.constraintPatterns.map Json.str)),
        ("responsiveElements", .num l.responsiveElements), ("score", .num l.score)]

def BreakpointData.toJson (b : BreakpointData) : Json :=
  .obj [("name", .str b.name), ("width", .num b.width),
        ("adaptations", .arr (b.adaptations.map Json.str))]

def ResponsiveBehavior.toJson (r : ResponsiveBehavior) : Json :=
  .obj [("breakpoints", .arr (r.breakpoints.map BreakpointData.toJson)),
        ("adaptiveComponents", .arr (r.adaptiveComponents.map Json.str)),
        ("contentReflow", .arr (r.contentReflow.map Json.str))]

def ImageSnapshot.toJson (i : ImageSnapshot) : Json :=
  .obj [("id", .str i.id), ("description", .str i.description),
        ("data", .str i.data), ("context", .str i.context)]

def DesignAnalysisData.toJson (d : DesignAnalysisData) : Json :=
  .obj ([("pages", .arr (d.pages.map PageData.toJson)),
         ("components", .arr (d.components.map ComponentData.toJson)),
         ("instances", .arr (d.instances.map InstanceData.toJson)),
         ("styles", d.styles.toJson),
         ("interactions", .arr (d.interactions.map InteractiveElement.toJson)),
         ("layout", d.layout.toJson),
         ("responsive", d.responsive.toJson)]
    ++ (match d.images with
        | some is => [("images", .arr (is.map ImageSnapshot.toJson))]
        | none => []))

/-! ## Prompt assembly (claude-api.ts, buildAnalysisPrompt) -/

/-- One content block of the request body: a text block, or a base64
image block (`source.type`, `source.media_type`, `source.data`). -/
inductive ContentBlock where
  | text (text : String) : ContentBlock
  | image (sourceType mediaType data : String) : ContentBlock

/-- The label text pushed before each attached image. -/
def imageLabel (description : String) : String :=
  "\n\nVISUAL CONTEXT - " ++ description ++ ":"

/-- The fixed instruction template with the serialized payload and the
two tag parameters interpolated, exactly as the template literal in
`buildAnalysisPrompt` produces it. -/
def promptText (designData : DesignAnalysisData) (analysisType priority : String) : String :=
  "You are a senior software engineer providing technical feasibility analysis for Figma designs. \n\nDESIGN DATA:\n"
  ++ stringifyJson 0 designData.toJson
  ++ "\n\nANALYSIS TYPE: " ++ analysisType
  ++ "\nPRIORITY FOCUS: " ++ priority
  ++ "\n\nPlease analyze this design and provide detailed engineering feedback in the following JSON format:\n\n"
  ++ "\x7b\n  \"feasibility\": \x7b\n    \"score\": 8,\n    \"technical\": \"Highly feasible with modern web technologies...\",\n    \"challenges\": [\"Complex nested layout structure\", \"Custom animation requirements\"],\n    \"alternatives\": [\"Consider CSS Grid instead of flexbox\", \"Use existing component library\"]\n  \x7d,\n"
  ++ "  \"effort\": \x7b\n    \"hours\": 32,\n    \"storyPoints\": 5,\n    \"complexity\": \"medium\",\n    \"breakdown\": [\n      \x7b\"category\": \"Frontend Development\", \"hours\": 20, \"description\": \"Component implementation\"\x7d,\n      \x7b\"category\": \"Testing\", \"hours\": 8, \"description\": \"Unit and integration tests\"\x7d,\n      \x7b\"category\": \"Code Review\", \"hours\": 4, \"description\": \"Review and refinement\"\x7d\n    ]\n  \x7d,\n"
  ++ "  \"coordination\": \x7b\n    \"teams\": [\"Frontend\", \"Design System\", \"QA\"],\n    \"dependencies\": [\"New design tokens\", \"Icon library updates\"],\n    \"timeline\": \"2-3 sprints\",\n    \"criticalPath\": [\"Design system updates\", \"Component implementation\", \"Testing\"]\n  \x7d,\n"
  ++ "  \"recommendations\": [\n    \x7b\n      \"type\": \"optimization\",\n      \"priority\": \"high\",\n      \"description\": \"Break complex component into smaller, reusable parts\",\n      \"impact\": \"Reduces development time by 25% and improves maintainability\"\n    \x7d\n  ],\n"
  ++ "  \"risks\": [\n    \x7b\n      \"category\": \"technical\",\n      \"severity\": \"medium\",\n      \"description\": \"Complex animation may impact performance on older devices\",\n      \"mitigation\": \"Implement progressive enhancement with reduced animations\"\n    \x7d\n  ],\n"
  ++ "  \"confidence\": 0.85\n\x7d\n\nANALYSIS GUIDELINES:\n"
  ++ "1. Consider modern web development practices (React, Vue, Angular)\n2. Evaluate design system integration and component reusability\n3. Assess accessibility requirements and compliance\n4. Factor in responsive design complexity\n5. Consider performance implications\n6. Evaluate testing requirements\n7. Assess cross-browser compatibility needs\n8. Consider maintenance and scalability factors\n\n"
  ++ "Focus on actionable, specific feedback that helps designers understand implementation reality."

/-- `buildAnalysisPrompt`: one text block with the instruction template,
then, when images are present, a label block and an image block for each
of the first three images. -/
def buildAnalysisPrompt (designData : DesignAnalysisData) (analysisType priority : String) :
    List ContentBlock :=
  let base := [ContentBlock.text (promptText designData analysisType priority)]
  match designData.images with
  | some images =>
    if images.length > 0 then
      base ++ (images.take 3).flatMap (fun image =>
        [ContentBlock.text (imageLabel image.description),
         ContentBlock.image "base64" "image/png" image.data])
    else base
  | none => base

/-! ## Scene-graph model (the host document interface)

`FigNode` models one scene node with its subtree.  Properties that a
node kind may or may not expose (`constraints` in node, `layoutMode` in
node, ...) are `Option` fields; `none` models the absence of the
property.  The source also walks `node.parent` pointers; a selected
root therefore carries its explicit ancestor chain (`Anc`, nearest
ancestor first), and nodes visited inside a subtree extend that chain
with the in-tree ancestors. -/

/-- Scene node kinds compared against by the sources. -/
inductive NodeType where
  | document | page | frame | group | text | rectangle | ellipse | vector
  | component | componentSet | inst
deriving DecidableEq

/-- The string form of the node kind, as the host exposes `node.type`. -/
def NodeType.str : NodeType → String
  | .document => "DOCUMENT"
  | .page => "PAGE"
  | .frame => "FRAME"
  | .group => "GROUP"
  | .text => "TEXT"
  | .rectangle => "RECTANGLE"
  | .ellipse => "ELLIPSE"
  | .vector => "VECTOR"
  | .component => "COMPONENT"
  | .componentSet => "COMPONENT_SET"
  | .inst => "INSTANCE"

/-- Geometry exposed by nodes that carry `width`/`height`/`x`/`y`. -/
structure Geom where
  width : ℚ
  height : ℚ
  x : ℚ
  y : ℚ

/-- Auto-layout parameters of a node exposing `layoutMode`. -/
structure ALProps where
  layoutMode : String
  itemSpacing : ℚ
  paddingTop : ℚ
  paddingRight : ℚ
  paddingBottom : ℚ
  paddingLeft : ℚ
  counterAxisSizingMode : String
  primaryAxisSizingMode : String

/-- One paint of a fill list or paint style. -/
structure Paint where
  type : String
  color : RGB
  opacity : Option ℚ

/-- Text properties of a text node; `none` in `fontName`/`fontSize`
models the host `figma.mixed` sentinel, which is not an object and not
a number. -/
structure TextProps where
  characters : String
  fontName : Option FontName
  fontSize : Option ℚ

/-- The scalar (non-recursive) properties of one scene node. -/
structure NodeProps where
  id : String
  name : String
  type : NodeType
  visible : Bool
  locked : Bool
  constraints : Option (String × String)
  geometry : Option Geom
  autoLayoutProps : Option ALProps
  fills : Option (List Paint)
  textProps : Option TextProps
  mainComponentId : Option String
  description : Option String
  variantProperties : Option (List String)

/-- One scene node with its subtree. -/
inductive FigNode where
  | node (props : NodeProps) (children : List FigNode)

def FigNode.props : FigNode → NodeProps
  | .node p _ => p

def FigNode.children : FigNode → List FigNode
  | .node _ c => c

def FigNode.id (n : FigNode) : String := n.props.id

def FigNode.name (n : FigNode) : String := n.props.name

def FigNode.type (n : FigNode) : NodeType := n.props.type

/-- One entry of an ancestor chain: what the `parent` walks in the
source read from an ancestor. -/
structure Anc where
  id : String
  name : String
  type : NodeType

/-- A selected root node together with its ancestor chain (nearest
ancestor first; the chain ends at the document root). -/
structure SelRoot where
  node : FigNode
  ancestors : List Anc

/-- The host document: the document root (whose children are the
pages) and the three document-wide style catalogs. -/
structure PaintStyle where
  name : String
  paints : List Paint

structure TextStyleRec where
  name : String
  fontName : FontName
  fontSize : ℚ
  lineHeightValue : Option ℚ

structure EffectStyleRec where
  name : String
  effects : List HostEffect

structure FigmaDocument where
  root : FigNode
  paintStyles : List PaintStyle
  textStyles : List TextStyleRec
  effectStyles : List EffectStyleRec

mutual
/-- All nodes of a subtree in pre-order (the node itself first), the
traversal order of `getAllNodesInSelection` and `figma.root.findAll`. -/
def subtreeNodes : FigNode → List FigNode
  | .node p cs => .node p cs :: subtreeNodesList cs

def subtreeNodesList : List FigNode → List FigNode
  | [] => []
  | c :: cs => subtreeNodes c ++ subtreeNodesList cs
end

mutual
/-- All nodes of a subtree in pre-order, each paired with its full
ancestor chain (in-tree ancestors prepended to the chain of the root). -/
def subtreeWithAnc : FigNode → List Anc → List (FigNode × List Anc)
  | .node p cs, anc => (.node p cs, anc) :: subtreeWithAncList cs (⟨p.id, p.name, p.type⟩ :: anc)

def subtreeWithAncList : List FigNode → List Anc → List (FigNode × List Anc)
  | [], _ => []
  | c :: cs, anc => subtreeWithAnc c anc ++ subtreeWithAncList cs anc
end

/-- `figma.root.findAll(callback)`: every node of the document strictly
below the root, in pre-order, filtered by the callback. -/
def findAll (root : FigNode) (p : FigNode → Bool) : List FigNode :=
  (subtreeNodesList root.children).filter p

/-! ## Tree extraction (design-extractor-simple.ts) -/

mutual
/-- `extractNodeHierarchy` restricted to one node: build its
`NodeData` record and recurse into its children.  A text node always
exposes its text properties; the impossible `(.text, none)` case keeps
the function total. -/
def extractNode : FigNode → NodeData
  | .node p cs =>
    .mk p.id p.name p.type.str p.visible p.locked
      (match p.constraints with
        | some c => ⟨c.1, c.2⟩
        | none => ⟨"LEFT", "TOP"⟩)
      (match p.geometry with
        | some g => ⟨g.width, g.height, g.x, g.y⟩
        | none => ⟨0, 0, 0, 0⟩)
      (match p.autoLayoutProps with
        | some al =>
          if al.layoutMode ≠ "NONE" then
            some ⟨al.layoutMode, al.itemSpacing,
                  ⟨al.paddingTop, al.paddingRight, al.paddingBottom, al.paddingLeft⟩,
                  al.counterAxisSizingMode, al.primaryAxisSizingMode⟩
          else none
        | none => none)
      (match p.fills with
        | some fs => some (fs.map (fun f =>
            ⟨f.type, if f.type = "SOLID" then some f.color else none, f.opacity, none⟩))
        | none => none)
      (match p.type, p.textProps with
        | .text, some tp =>
          some ⟨tp.characters, tp.fontName.getD ⟨"Inter", "Regular"⟩, tp.fontSize.getD 16,
                400, 1.2, 0, []⟩
        | _, _ => none)
      (if cs.isEmpty then none else some (extractNodeList cs))

/-- `extractNodeHierarchy` on a list of nodes. -/
def extractNodeList : List FigNode → List NodeData
  | [] => []
  | c :: cs => extractNode c :: extractNodeList cs
end

/-- `extractNodeHierarchy`. -/
def extractNodeHierarchy (nodes : List FigNode) : List NodeData :=
  extractNodeList nodes

/-- The loop body accumulator of `extractPageData`: `processed` is the
set of page ids already handled. -/
def extractPageDataGo : List SelRoot → List String → List PageData
  | [], _ => []
  | r :: rest, processed =>
    match r.ancestors.head? with
    | some page =>
      if page.type = NodeType.page ∧ ¬ processed.contains page.id then
        ⟨page.id, page.name, NodeType.page.str, none, none, extractNodeHierarchy [r.node]⟩
          :: extractPageDataGo rest (page.id :: processed)
      else extractPageDataGo rest processed
    | none => extractPageDataGo rest processed

/-- `extractPageData`: for each selected root whose parent is a page
not yet processed, one `PageData` whose children are the hierarchy of
that single root. -/
def extractPageData (selection : List SelRoot) : List PageData :=
  extractPageDataGo selection []

mutual
/-- `getDescendantCount`: the node itself plus all its descendants. -/
def getDescendantCount : FigNode → Nat
  | .node _ cs => 1 + getDescendantCountList cs

/-- `getDescendantCount` summed over a list of subtrees. -/
def getDescendantCountList : List FigNode → Nat
  | [] => 0
  | c :: cs => getDescendantCount c + getDescendantCountList cs
end

/-- `isInteractiveElement`: the display name matches the pattern
`/button|btn|click|press|submit|link|nav/i`. -/
def isInteractiveElement (n : FigNode) : Bool :=
  ["button", "btn", "click", "press", "submit", "link", "nav"].any
    (fun pat => strContains (jsToLower n.name) pat)

/-- `getAllNodesInSelection` (pre-order flattening). -/
def getAllNodesInSelection (nodes : List FigNode) : List FigNode :=
  subtreeNodesList nodes

/-- `hasInteractiveElements`. -/
def hasInteractiveElements (nodes : List FigNode) : Bool :=
  (getAllNodesInSelection nodes).any isInteractiveElement

/-- `calculateComponentComplexity`. -/
def calculateComponentComplexity (component : FigNode) : ComplexityScore :=
  let childCount := getDescendantCount component
  let hasInteractions := hasInteractiveElements [component]
  let variantCount := match component.props.variantProperties with
    | some keys => keys.length
    | none => 0
  let structure_ := min 10 (childCount / 5 + 1)
  let interactions := if hasInteractions then 3 else 1
  let variants := min 3 variantCount
  let overall := min 10 ((structure_ + interactions + variants) / 3)
  ⟨structure_, interactions, variants, overall⟩

/-- `countComponentInstances`: document-wide instances whose resolved
main component has the given id. -/
def countComponentInstances (doc : FigmaDocument) (componentId : String) : Nat :=
  (findAll doc.root (fun n =>
    n.props.type == NodeType.inst && n.props.mainComponentId == some componentId)).length

/-- `extractComponentData`: enumerate all document-wide component and
component-set nodes, then push a record for the plain components only.
(Component nodes always expose a description string; `getD ""` covers
the unrepresentable absent case.) -/
def extractComponentData (doc : FigmaDocument) : List ComponentData :=
  (findAll doc.root (fun n =>
    n.props.type == NodeType.component || n.props.type == NodeType.componentSet)).filterMap
    (fun c =>
      if c.props.type = NodeType.component then
        some ⟨c.props.id, c.props.name, c.props.description.getD "", "COMPONENT", [], [],
              countComponentInstances doc c.props.id, calculateComponentComplexity c⟩
      else none)

/-- `calculateNestingDepth`: hops along the ancestor chain until the
first page (or the end of the chain). -/
def calculateNestingDepth (ancestors : List Anc) : Nat :=
  (ancestors.takeWhile (fun a => a.type != NodeType.page)).length

/-- `isNestedInstance`: some ancestor (the walk does not stop at a
page) is itself an instance. -/
def isNestedInstance (ancestors : List Anc) : Bool :=
  ancestors.any (fun a => a.type == NodeType.inst)

/-- All nodes inside the selection with their ancestor chains. -/
def allNodesWithAnc (selection : List SelRoot) : List (FigNode × List Anc) :=
  selection.flatMap (fun r => subtreeWithAnc r.node r.ancestors)

/-- `extractInstanceData`: one record per instance node anywhere inside
the selection. -/
def extractInstanceData (selection : List SelRoot) : List InstanceData :=
  ((allNodesWithAnc selection).filter (fun x => x.1.props.type == NodeType.inst)).map
    (fun x =>
      ⟨x.1.props.id, x.1.props.mainComponentId.getD "", [],
       isNestedInstance x.2, calculateNestingDepth x.2⟩)

/-- `getInteractiveType`: first matching substring in priority order. -/
def getInteractiveType (n : FigNode) : String :=
  let name := jsToLower n.name
  if strContains name "button" || strContains name "btn" then "BUTTON"
  else if strContains name "input" || strContains name "field" then "INPUT"
  else if strContains name "link" then "LINK"
  else if strContains name "form" then "FORM"
  else if strContains name "nav" || strContains name "menu" then "NAVIGATION"
  else "BUTTON"

/-- `extractInteractiveElements`. -/
def extractInteractiveElements (selection : List SelRoot) : List InteractiveElement :=
  ((selection.flatMap (fun r => subtreeNodes r.node)).filter isInteractiveElement).map
    (fun n =>
      ⟨n.props.id, getInteractiveType n, ["Default"], [],
       ⟨(match n.props.description with
          | some d => d ≠ ""
          | none => false),
        true, n.props.description⟩⟩)

/-- `extractColorTokens`. -/
def extractColorTokens (doc : FigmaDocument) : List ColorToken :=
  doc.paintStyles.map (fun style =>
    ⟨style.name,
     (match style.paints.head? with
      | some p => if p.type = "SOLID" then p.color else ⟨0, 0, 0⟩
      | none => ⟨0, 0, 0⟩),
     0⟩)

/-- `extractTypographyTokens`; the `lineHeight` read is
`object.value || 1.2`, so a missing or zero value becomes 1.2. -/
def extractTypographyTokens (doc : FigmaDocument) : List TypographyToken :=
  doc.textStyles.map (fun style =>
    ⟨style.name, style.fontName.family, style.fontSize, 400,
     (match style.lineHeightValue with
      | some v => if v ≠ 0 then v else 1.2
      | none => 1.2),
     0⟩)

/-- `extractEffectTokens`; the type read is
`style.effects[0]?.type || 'UNKNOWN'`. -/
def extractEffectTokens (doc : FigmaDocument) : List EffectToken :=
  doc.effectStyles.map (fun style =>
    ⟨style.name,
     (match style.effects.head? with
      | some e => if e.type ≠ "" then e.type else "UNKNOWN"
      | none => "UNKNOWN"),
     style.effects.head?, 0⟩)

/-- `extractDesignTokens`. -/
def extractDesignTokens (doc : FigmaDocument) : DesignTokens :=
  ⟨extractColorTokens doc, extractTypographyTokens doc, [], extractEffectTokens doc,
   ⟨0, 0, 0⟩⟩

/-- The composite score formula of `analyzeLayoutComplexity`, as a
function of the four signals: start at 1, add the four capped
contributions, clamp at 10.  The third contribution divides the
constraint-pattern count by 2 without flooring (JavaScript number
division). -/
def layoutScore (depth usage patterns responsive : Nat) : ℚ :=
  min 10 (1 + ((min 3 (depth / 3) : ℕ) : ℚ) + ((min 2 (usage / 5) : ℕ) : ℚ)
    + min 2 ((patterns : ℚ) / 2) + ((min 2 (responsive / 3) : ℕ) : ℚ))

/-- `analyzeLayoutComplexity`.  `Math.max` over the per-node depths is
modelled with `foldl max 0`, which agrees with the source on every
non-empty selection (the only way it is called). -/
def analyzeLayoutComplexity (selection : List SelRoot) : LayoutComplexity :=
  let allNodes := allNodesWithAnc selection
  let nestingDepth := (allNodes.map (fun x => calculateNestingDepth x.2)).foldl max 0
  let autoLayoutNodes := allNodes.filter (fun x =>
    match x.1.props.autoLayoutProps with
    | some al => al.layoutMode != "NONE"
    | none => false)
  let autoLayoutUsage := autoLayoutNodes.length
  let constraintPatterns := ["LEFT-TOP", "CENTER-CENTER"]
  let responsiveElements := (allNodes.filter (fun x => x.1.props.constraints.isSome)).length
  ⟨nestingDepth, autoLayoutUsage, constraintPatterns, responsiveElements,
   layoutScore nestingDepth autoLayoutUsage constraintPatterns.length responsiveElements⟩

/-- `analyzeResponsiveBehavior`. -/
def analyzeResponsiveBehavior : ResponsiveBehavior :=
  ⟨[], [], []⟩

/-- `extractDesignData`: fails on an empty selection, otherwise
assembles the full analysis payload. -/
def extractDesignData (doc : FigmaDocument) (selection : List SelRoot) :
    Except String DesignAnalysisData :=
  if selection.isEmpty then .error "No design elements selected"
  else .ok
    ⟨extractPageData selection, extractComponentData doc, extractInstanceData selection,
     extractDesignTokens doc, extractInteractiveElements selection,
     analyzeLayoutComplexity selection, analyzeResponsiveBehavior, none⟩

/-- The image data carried by a content block, if it is an image
block. -/
def imageBlockData : ContentBlock → Option String
  | .image _ _ d => some d
  | _ => none

/-- The label/image block pair pushed per attached image by
`buildAnalysisPrompt`. -/
def imagePairs (images : List ImageSnapshot) : List ContentBlock :=
  images.flatMap (fun image =>
    [ContentBlock.text (imageLabel image.description),
     ContentBlock.image "base64" "image/png" image.data])

/-! ## Concrete fixtures used by counterexamples and witnesses -/

/-- A childless component named `Card`: no interactive-looking name, no
variant axes. -/
def leafComponent : FigNode :=
  .node ⟨"c1", "Card", .component, true, false, none, none, none, none, none, none,
         some "", none⟩ []

/-- The page ancestor used by the selection fixtures. -/
def pageAnc : Anc := ⟨"page1", "Page 1", .page⟩

/-- A single text node with no children and no auto-layout, directly on
a page. -/
def singleTextNode : FigNode :=
  .node ⟨"t1", "Hello", .text, true, false, some ("MIN", "MIN"), some ⟨100, 20, 0, 0⟩,
         none, none, some ⟨"Hello", some ⟨"Inter", "Regular"⟩, some 12⟩, none, none, none⟩ []

/-- The single-text-node selection of the layout scenario. -/
def singleTextSel : SelRoot := ⟨singleTextNode, [pageAnc]⟩

/-- First selected root: a frame on `page1`. -/
def frameRootA : SelRoot :=
  ⟨.node ⟨"n1", "Frame A", .frame, true, false, some ("MIN", "MIN"), some ⟨10, 10, 0, 0⟩,
          none, none, none, none, none, none⟩ [], [pageAnc]⟩

/-- Second selected root: another frame on the same `page1`. -/
def frameRootB : SelRoot :=
  ⟨.node ⟨"n2", "Frame B", .frame, true, false, some ("MIN", "MIN"), some ⟨10, 10, 20, 0⟩,
          none, none, none, none, none, none⟩ [], [pageAnc]⟩

/-- A document whose only component-like node is a component set. -/
def componentSetDoc : FigmaDocument :=
  ⟨.node ⟨"0:0", "Document", .document, true, false, none, none, none, none, none, none,
          none, none⟩
     [.node ⟨"page1", "Page 1", .page, true, false, none, none, none, none, none, none,
             none, none⟩
        [.node ⟨"cs1", "Card Set", .componentSet, true, false, none, none, none, none,
                none, none, some "", some ["Size"]⟩ []]],
   [], [], []⟩

/-- A document with one style in each catalog. -/
def sampleDoc : FigmaDocument :=
  ⟨.node ⟨"0:0", "Document", .document, true, false, none, none, none, none, none, none,
          none, none⟩ [],
   [⟨"Primary", [⟨"SOLID", ⟨1, 0, 0⟩, none⟩]⟩],
   [⟨"Body", ⟨"Inter", "Regular"⟩, 16, some 1⟩],
   [⟨"Shadow", [⟨"DROP_SHADOW", true, some 4⟩]⟩]⟩

/-- One image snapshot for the prompt-builder witness. -/
def sampleImage : ImageSnapshot := ⟨"i1", "Full layout", "QUJD", "layout"⟩

/-- A minimal analysis payload carrying one image. -/
def samplePayload : DesignAnalysisData :=
  ⟨[], [], [], ⟨[], [], [], [], ⟨0, 0, 0⟩⟩, [], ⟨0, 0, [], 0, 1⟩, ⟨[], [], []⟩,
   some [sampleImage]⟩

/-! ## Theorems -/

/-- Claim C8: the credential format check accepts `sk-ant-` plus 14
arbitrary characters (21 total), rejects the 12-character
`sk-ant-short`, and rejects every string lacking the `sk-ant-` prefix
regardless of length. -/
theorem isValidApiKey_spec :
    (∀ suffix : String, suffix.length = 14 → isValidApiKey ("sk-ant-" ++ suffix) = true) ∧
    isValidApiKey "sk-ant-short" = false ∧
    (∀ s : String, jsStartsWith s "sk-ant-" = false → isValidApiKey s = false) := by
  refine ⟨fun suffix h => ?_, ?_, fun s h => ?_⟩
  · have hpre : jsStartsWith ("sk-ant-" ++ suffix) "sk-ant-" = true := by
      unfold jsStartsWith
      rw [List.isPrefixOf_iff_prefix, String.data_append]
      exact List.prefix_append _ _
    have hlen : ("sk-ant-" ++ suffix).length = 21 := by
      rw [String.length_append, h]
      decide
    unfold isValidApiKey
    rw [hpre, hlen]
    decide
  · decide
  · unfold isValidApiKey
    rw [h]
    rfl

/-- Witness for C8 at the concrete suffix `AAAAAAAAAAAAAA` and the
concrete prefix-free string `not-a-key`. -/
theorem isValidApiKey_spec_witness :
    isValidApiKey ("sk-ant-" ++ "AAAAAAAAAAAAAA") = true ∧
    isValidApiKey "not-a-key" = false :=
  ⟨isValidApiKey_spec.1 "AAAAAAAAAAAAAA" (by decide),
   isValidApiKey_spec.2.2 "not-a-key" (by decide)⟩

/-- Claim C10: every extraction produces usage statistics that are
identically zero, and every harvested color, typography, and effect
token has usage count 0. -/
theorem extractDesignTokens_usage_all_zero (doc : FigmaDocument) :
    (extractDesignTokens doc).usage = ⟨0, 0, 0⟩ ∧
    (∀ t ∈ (extractDesignTokens doc).colors, t.usage = 0) ∧
    (∀ t ∈ (extractDesignTokens doc).typography, t.usage = 0) ∧
    (∀ t ∈ (extractDesignTokens doc).effects, t.usage = 0) := by
  refine ⟨rfl, fun t ht => ?_, fun t ht => ?_, fun t ht => ?_⟩
  · simp only [extractDesignTokens, extractColorTokens, List.mem_map] at ht
    obtain ⟨s, -, rfl⟩ := ht
    rfl
  · simp only [extractDesignTokens, extractTypographyTokens, List.mem_map] at ht
    obtain ⟨s, -, rfl⟩ := ht
    rfl
  · simp only [extractDesignTokens, extractEffectTokens, List.mem_map] at ht
    obtain ⟨s, -, rfl⟩ := ht
    rfl

/-- Witness for C10 on a document with one style in each catalog. -/
theorem extractDesignTokens_usage_all_zero_witness :
    (extractDesignTokens sampleDoc).usage = ⟨0, 0, 0⟩ ∧
    (⟨"Primary", ⟨1, 0, 0⟩, 0⟩ : ColorToken).usage = 0 :=
  ⟨(extractDesignTokens_usage_all_zero sampleDoc).1,
   (extractDesignTokens_usage_all_zero sampleDoc).2.1 ⟨"Primary", ⟨1, 0, 0⟩, 0⟩
     (by simp [extractDesignTokens, extractColorTokens, sampleDoc])⟩

/-- Counterexample to claim C3: a childless, non-interactive component
with no variant axes scores `structure = 1`, `interactions = 1`,
`variants = 0`, hence `overall = min 10 (2 / 3) = 0`, below the claimed
lower bound 1. -/
theorem componentComplexity_overall_zero :
    (calculateComponentComplexity leafComponent).structure_ = 1 ∧
    (calculateComponentComplexity leafComponent).interactions = 1 ∧
    (calculateComponentComplexity leafComponent).variants = 0 ∧
    (calculateComponentComplexity leafComponent).overall = 0 ∧
    ¬ 1 ≤ (calculateComponentComplexity leafComponent).overall := by
  refine ⟨rfl, rfl, rfl, rfl, ?_⟩
  decide

/-- Claim C3 (amended): the overall component complexity is at most 10,
and it is 0 (not 1) exactly when the three sub-scores sum below 3 —
which the minimal combination `structure = 1`, `interactions = 1`,
`variants = 0` attains. -/
theorem componentComplexity_overall_bounds (c : FigNode) :
    (calculateComponentComplexity c).overall ≤ 10 ∧
    ((calculateComponentComplexity c).overall = 0 ↔
      (calculateComponentComplexity c).structure_ + (calculateComponentComplexity c).interactions
        + (calculateComponentComplexity c).variants < 3) := by
  obtain ⟨s, i, v, h⟩ : ∃ s i v : ℕ, calculateComponentComplexity c =
      ⟨s, i, v, min 10 ((s + i + v) / 3)⟩ := ⟨_, _, _, rfl⟩
  rw [h]
  constructor
  · exact Nat.min_le_left 10 _
  · simp only []
    omega

/-- Counterexample to claim C4: on the single-text-node scenario the
analysis returns `nestingDepth = 0` and `autoLayoutUsage = 0` as
claimed, but the score is not 1. -/
theorem singleText_layout_score_ne_one :
    (analyzeLayoutComplexity [singleTextSel]).nestingDepth = 0 ∧
    (analyzeLayoutComplexity [singleTextSel]).autoLayoutUsage = 0 ∧
    (analyzeLayoutComplexity [singleTextSel]).score ≠ 1 := by
  refine ⟨rfl, rfl, ?_⟩
  have h : (analyzeLayoutComplexity [singleTextSel]).score = layoutScore 0 0 2 1 := rfl
  rw [h]
  norm_num [layoutScore]

/-- Claim C4 (amended): the scenario yields `nestingDepth = 0`,
`autoLayoutUsage = 0` and `score = 2`: the hardcoded two-element
constraint-pattern list contributes a constant `+1`, so no selection
can score below 2. -/
theorem singleText_layout_score_two :
    (analyzeLayoutComplexity [singleTextSel]).nestingDepth = 0 ∧
    (analyzeLayoutComplexity [singleTextSel]).autoLayoutUsage = 0 ∧
    (analyzeLayoutComplexity [singleTextSel]).score = 2 ∧
    (∀ selection : List SelRoot, selection ≠ [] →
      2 ≤ (analyzeLayoutComplexity selection).score) := by
  refine ⟨rfl, rfl, ?_, fun selection _ => ?_⟩
  · have h : (analyzeLayoutComplexity [singleTextSel]).score = layoutScore 0 0 2 1 := rfl
    rw [h]
    norm_num [layoutScore]
  · have h : (analyzeLayoutComplexity selection).score =
        layoutScore (analyzeLayoutComplexity selection).nestingDepth
          (analyzeLayoutComplexity selection).autoLayoutUsage 2
          (analyzeLayoutComplexity selection).responsiveElements := rfl
    rw [h]
    unfold layoutScore
    have h2 : min 2 (((2 : ℕ) : ℚ) / 2) = 1 := by norm_num
    rw [h2]
    have ha : (0 : ℚ) ≤ ((min 3 ((analyzeLayoutComplexity selection).nestingDepth / 3) : ℕ) : ℚ) :=
      Nat.cast_nonneg _
    have hb : (0 : ℚ) ≤ ((min 2 ((analyzeLayoutComplexity selection).autoLayoutUsage / 5) : ℕ) : ℚ) :=
      Nat.cast_nonneg _
    have hc : (0 : ℚ) ≤ ((min 2 ((analyzeLayoutComplexity selection).responsiveElements / 3) : ℕ) : ℚ) :=
      Nat.cast_nonneg _
    refine le_min (by norm_num) (by linarith)

/-- Witness for the amended C4 on the scenario selection itself. -/
theorem singleText_layout_score_two_witness :
    2 ≤ (analyzeLayoutComplexity [singleTextSel]).score :=
  singleText_layout_score_two.2.2.2 [singleTextSel] (by simp)

/-- Helper for C6: on any node list, filtering for components and
component sets and then keeping records for the plain components only
yields exactly the ids of the plain components. -/
theorem filterMap_filter_components (f : FigNode → ComponentData)
    (hf : ∀ c, (f c).id = c.props.id) (l : List FigNode) :
    ((l.filter (fun n => n.props.type == NodeType.component
        || n.props.type == NodeType.componentSet)).filterMap
      (fun c => if c.props.type = NodeType.component then some (f c) else none)).map
        ComponentData.id
      = (l.filter (fun n => n.props.type == NodeType.component)).map (fun n => n.props.id) := by
  induction l with
  | nil => rfl
  | cons x xs ih =>
    by_cases hx : x.props.type = NodeType.component
    · simp [List.filter_cons, hx, List.filterMap_cons, ih, hf]
    · by_cases hx2 : x.props.type = NodeType.componentSet
      · simp [List.filter_cons, hx, hx2, List.filterMap_cons, ih]
      · simp [List.filter_cons, hx, hx2, ih]

/-- Counterexample to claim C6: in a document whose only
component-like node is a component set, the document-wide search finds
that node, but no `ComponentRecord` is produced for it. -/
theorem componentSet_gets_no_record :
    ((findAll componentSetDoc.root (fun n => n.props.type == NodeType.component
        || n.props.type == NodeType.componentSet)).map (fun n => n.props.id) = ["cs1"]) ∧
    ((findAll componentSetDoc.root (fun n => n.props.type == NodeType.component
        || n.props.type == NodeType.componentSet)).map (fun n => n.props.type)
      = [NodeType.componentSet]) ∧
    extractComponentData componentSetDoc = [] :=
  ⟨rfl, rfl, rfl⟩

/-- Claim C6 (amended): component extraction enumerates all
document-wide component and component-set nodes, but produces records
exactly for the plain COMPONENT nodes; COMPONENT_SET nodes are
enumerated and then skipped. -/
theorem extractComponentData_components_only (doc : FigmaDocument) :
    (extractComponentData doc).map ComponentData.id =
      (findAll doc.root (fun n => n.props.type == NodeType.component)).map
        (fun n => n.props.id) := by
  unfold extractComponentData findAll
  exact filterMap_filter_components _ (fun c => rfl) _

/-- Counterexample to claim C5: a response with no brace pair and a
response whose located span `\x7b]\x7d` fails to parse surface to the
caller as the very same error value, so the two failure kinds are not
distinct for the caller. -/
theorem parse_failure_kinds_collapse :
    locateSpan "The design is too complex to analyze." = none ∧
    parseClaudeResponse "The design is too complex to analyze." =
      .error "Invalid response format from Claude API" ∧
    locateSpan "Result: \x7b]\x7d end" = some "\x7b]\x7d" ∧
    jsonParse "\x7b]\x7d" = none ∧
    parseClaudeResponse "Result: \x7b]\x7d end" =
      .error "Invalid response format from Claude API" :=
  ⟨rfl, rfl, rfl, rfl, rfl⟩

/-- Claim C5 (amended): the validator classifies the two failure kinds
internally — no located span versus a span that fails to parse — but
the surrounding catch block rethrows both as the single message
`Invalid response format from Claude API`, so the caller cannot
distinguish them. -/
theorem parseClaudeResponse_error_collapse :
    (∀ s, locateSpan s = none → parseClaudeResponseBody s = .error TryFailure.noJsonFound) ∧
    (∀ s span, locateSpan s = some span → jsonParse span = none →
      parseClaudeResponseBody s = .error TryFailure.jsonParseError) ∧
    (∀ s e, parseClaudeResponseBody s = .error e →
      parseClaudeResponse s = .error "Invalid response format from Claude API") := by
  refine ⟨fun s h => ?_, fun s span h1 h2 => ?_, fun s e h => ?_⟩
  · simp [parseClaudeResponseBody, h]
  · simp [parseClaudeResponseBody, h1, h2]
  · simp [parseClaudeResponse, h]

/-- Witness for the amended C5 at a concrete brace-free response. -/
theorem parseClaudeResponse_error_collapse_witness :
    parseClaudeResponseBody "no braces at all" = .error TryFailure.noJsonFound ∧
    parseClaudeResponse "no braces at all" = .error "Invalid response format from Claude API" :=
  ⟨parseClaudeResponse_error_collapse.1 "no braces at all" rfl,
   parseClaudeResponse_error_collapse.2.2 "no braces at all" TryFailure.noJsonFound rfl⟩

/-- Counterexample to claim C1: in the response
`Here: \x7b"risks":null\x7d` the span is found and parsed and the
`risks` field is present (with value `null`), yet the result replaces
it by the default empty array instead of preserving it. -/
theorem presentField_replaced_by_default :
    jsonParse "\x7b\"risks\":null\x7d" = some (.obj [("risks", .null)]) ∧
    parseClaudeResponseBody "Here: \x7b\"risks\":null\x7d" =
      .ok (validateAnalysis [("risks", Json.null)]) ∧
    jLookup [("risks", Json.null)] "risks" = some Json.null ∧
    (validateAnalysis [("risks", Json.null)]).risks = Json.arr [] ∧
    Json.arr [] ≠ Json.null :=
  ⟨rfl, rfl, rfl, rfl, fun h => Json.noConfusion h⟩

/-- Claim C1 (amended): after a span is found and parsed, each of the
six fields is taken with the JavaScript `||`: a missing field is
replaced by exactly its documented default, and a present field is
preserved only when truthy — a present falsy value (`null`, `false`,
`0`, the empty string) is also replaced by the default. -/
theorem validateAnalysis_defaults (parsed : List (String × Json)) :
    ((jLookup parsed "feasibility" = none →
        (validateAnalysis parsed).feasibility = defaultFeasibility) ∧
      ∀ v, jLookup parsed "feasibility" = some v →
        (validateAnalysis parsed).feasibility = if jsTruthy v then v else defaultFeasibility) ∧
    ((jLookup parsed "effort" = none →
        (validateAnalysis parsed).effort = defaultEffort) ∧
      ∀ v, jLookup parsed "effort" = some v →
        (validateAnalysis parsed).effort = if jsTruthy v then v else defaultEffort) ∧
    ((jLookup parsed "coordination" = none →
        (validateAnalysis parsed).coordination = defaultCoordination) ∧
      ∀ v, jLookup parsed "coordination" = some v →
        (validateAnalysis parsed).coordination =
          if jsTruthy v then v else defaultCoordination) ∧
    ((jLookup parsed "recommendations" = none →
        (validateAnalysis parsed).recommendations = Json.arr []) ∧
      ∀ v, jLookup parsed "recommendations" = some v →
        (validateAnalysis parsed).recommendations = if jsTruthy v then v else Json.arr []) ∧
    ((jLookup parsed "risks" = none →
        (validateAnalysis parsed).risks = Json.arr []) ∧
      ∀ v, jLookup parsed "risks" = some v →
        (validateAnalysis parsed).risks = if jsTruthy v then v else Json.arr []) ∧
    ((jLookup parsed "confidence" = none →
        (validateAnalysis parsed).confidence = Json.num 0.5) ∧
      ∀ v, jLookup parsed "confidence" = some v →
        (validateAnalysis parsed).confidence = if jsTruthy v then v else Json.num 0.5) := by
  refine ⟨⟨fun h => ?_, fun v h => ?_⟩, ⟨fun h => ?_, fun v h => ?_⟩,
    ⟨fun h => ?_, fun v h => ?_⟩, ⟨fun h => ?_, fun v h => ?_⟩,
    ⟨fun h => ?_, fun v h => ?_⟩, ⟨fun h => ?_, fun v h => ?_⟩⟩ <;>
    simp [validateAnalysis, jsOr, h]

/-- Witness for the amended C1: with only a truthy `confidence` field
present, the missing `feasibility` gets its default and the present
`confidence` is preserved. -/
theorem validateAnalysis_defaults_witness :
    (validateAnalysis [("confidence", Json.num 1)]).feasibility = defaultFeasibility ∧
    (validateAnalysis [("confidence", Json.num 1)]).confidence =
      (if jsTruthy (Json.num 1) then Json.num 1 else Json.num 0.5) :=
  ⟨(validateAnalysis_defaults [("confidence", Json.num 1)]).1.1 rfl,
   (validateAnalysis_defaults [("confidence", Json.num 1)]).2.2.2.2.2.2 (Json.num 1) rfl⟩

/-- Helper for C2: if some selected root `r` has page parent `a`, the
page id is not yet processed, and no earlier root has the same page
parent, then the output of the extraction loop contains the page record
built from `r` alone. -/
theorem extractPageDataGo_first (r : SelRoot) (a : Anc)
    (ha : r.ancestors.head? = some a) (hp : a.type = NodeType.page) :
    ∀ (pre : List SelRoot) (post : List SelRoot) (processed : List String),
      processed.contains a.id = false →
      (∀ r' ∈ pre, ∀ a' : Anc, r'.ancestors.head? = some a' →
        a'.type = NodeType.page → a'.id ≠ a.id) →
      (⟨a.id, a.name, NodeType.page.str, none, none, extractNodeHierarchy [r.node]⟩ : PageData)
        ∈ extractPageDataGo (pre ++ r :: post) processed := by
  intro pre
  induction pre with
  | nil =>
    intro post processed hproc _
    rw [List.nil_append]
    have hcond : a.type = NodeType.page ∧ ¬ processed.contains a.id = true := by
      exact ⟨hp, by rw [hproc]; exact Bool.false_ne_true⟩
    simp only [extractPageDataGo, ha, if_pos hcond]
    exact List.mem_cons_self _ _
  | cons x xs ih =>
    intro post processed hproc hpre
    rw [List.cons_append]
    have hpre' : ∀ r' ∈ xs, ∀ a' : Anc, r'.ancestors.head? = some a' →
        a'.type = NodeType.page → a'.id ≠ a.id :=
      fun r' hr' => hpre r' (List.mem_cons_of_mem _ hr')
    cases hx : x.ancestors.head? with
    | none =>
      simp only [extractPageDataGo, hx]
      exact ih post processed hproc hpre'
    | some a' =>
      by_cases hcond : a'.type = NodeType.page ∧ ¬ processed.contains a'.id = true
      · have hne : a'.id ≠ a.id := hpre x (List.mem_cons_self _ _) a' hx hcond.1
        have hproc' : (a'.id :: processed).contains a.id = false := by
          simp only [List.contains_cons, Bool.or_eq_false_iff]
          exact ⟨beq_eq_false_iff_ne.mpr (fun hh => hne hh.symm), hproc⟩
        simp only [extractPageDataGo, hx, if_pos hcond]
        exact List.mem_cons_of_mem _ (ih post (a'.id :: processed) hproc' hpre')
      · simp only [extractPageDataGo, hx, if_neg hcond]
        exact ih post processed hproc hpre'

/-- Counterexample to claim C2: with two roots selected on the same
page, the output contains a single page record holding only the first
root; the second selected root appears nowhere in the output. -/
theorem secondRoot_dropped :
    (extractPageData [frameRootA, frameRootB]).length = 1 ∧
    ((extractPageData [frameRootA, frameRootB]).map (fun p => p.children.map NodeData.id))
      = [["n1"]] ∧
    ¬ ∃ p ∈ extractPageData [frameRootA, frameRootB], ∃ nd ∈ p.children, nd.id = "n2" := by
  refine ⟨rfl, rfl, ?_⟩
  decide

/-- Claim C2 (amended): a selected root appears as the root of an
extracted tree when its parent is a page and no earlier selected root
has the same parent page; later roots on an already-processed page (and
roots whose parent is not a page) are dropped. -/
theorem extractPageData_first_root_only (pre post : List SelRoot) (r : SelRoot) (a : Anc)
    (ha : r.ancestors.head? = some a) (hp : a.type = NodeType.page)
    (hpre : ∀ r' ∈ pre, ∀ a' : Anc, r'.ancestors.head? = some a' →
      a'.type = NodeType.page → a'.id ≠ a.id) :
    (⟨a.id, a.name, NodeType.page.str, none, none, extractNodeHierarchy [r.node]⟩ : PageData)
      ∈ extractPageData (pre ++ r :: post) :=
  extractPageDataGo_first r a ha hp pre post [] rfl hpre

/-- Witness for the amended C2: a single selected root on `page1`
yields the page record containing exactly its extracted tree. -/
theorem extractPageData_first_root_only_witness :
    (⟨"page1", "Page 1", "PAGE", none, none, extractNodeHierarchy [frameRootA.node]⟩ : PageData)
      ∈ extractPageData [frameRootA] :=
  extractPageData_first_root_only [] [] frameRootA pageAnc rfl rfl (by simp)

/-- Claim C7: the layout complexity score is monotonically
non-decreasing in each of its four input signals (nesting depth,
auto-layout usage, constraint-pattern count, responsive-element count),
always lies in [1, 10], and is exactly the score computed by
`analyzeLayoutComplexity` on its extracted signals. -/
theorem layoutScore_monotone_bounded :
    (∀ d d' u p r : ℕ, d ≤ d' → layoutScore d u p r ≤ layoutScore d' u p r) ∧
    (∀ d u u' p r : ℕ, u ≤ u' → layoutScore d u p r ≤ layoutScore d u' p r) ∧
    (∀ d u p p' r : ℕ, p ≤ p' → layoutScore d u p r ≤ layoutScore d u p' r) ∧
    (∀ d u p r r' : ℕ, r ≤ r' → layoutScore d u p r ≤ layoutScore d u p r') ∧
    (∀ d u p r : ℕ, 1 ≤ layoutScore d u p r ∧ layoutScore d u p r ≤ 10) ∧
    (∀ selection : List SelRoot,
      (analyzeLayoutComplexity selection).score =
        layoutScore (analyzeLayoutComplexity selection).nestingDepth
          (analyzeLayoutComplexity selection).autoLayoutUsage
          (analyzeLayoutComplexity selection).constraintPatterns.length
          (analyzeLayoutComplexity selection).responsiveElements) := by
  refine ⟨fun d d' u p r h => ?_, fun d u u' p r h => ?_, fun d u p p' r h => ?_,
    fun d u p r r' h => ?_, fun d u p r => ⟨?_, ?_⟩, fun selection => rfl⟩
  · unfold layoutScore
    gcongr
  · unfold layoutScore
    gcongr
  · unfold layoutScore
    gcongr
  · unfold layoutScore
    gcongr
  · unfold layoutScore
    have ha : (0 : ℚ) ≤ ((min 3 (d / 3) : ℕ) : ℚ) := Nat.cast_nonneg _
    have hb : (0 : ℚ) ≤ ((min 2 (u / 5) : ℕ) : ℚ) := Nat.cast_nonneg _
    have hc : (0 : ℚ) ≤ ((min 2 (r / 3) : ℕ) : ℚ) := Nat.cast_nonneg _
    have hd : (0 : ℚ) ≤ min 2 ((p : ℚ) / 2) := le_min (by norm_num) (by positivity)
    exact le_min (by norm_num) (by linarith)
  · exact min_le_left 10 _

/-- Witness for C7: monotonicity applied at depth 0 versus 3, and the
lower bound at a concrete signal combination. -/
theorem layoutScore_monotone_bounded_witness :
    layoutScore 0 0 2 0 ≤ layoutScore 3 0 2 0 ∧ 1 ≤ layoutScore 5 5 2 5 :=
  ⟨layoutScore_monotone_bounded.1 0 3 0 2 0 (by decide),
   (layoutScore_monotone_bounded.2.2.2.2.1 5 5 2 5).1⟩

/-- Helper for C9: each attached image contributes exactly two blocks. -/
theorem imagePairs_length (l : List ImageSnapshot) :
    (imagePairs l).length = 2 * l.length := by
  induction l with
  | nil => rfl
  | cons x xs ih =>
    have hx : imagePairs (x :: xs) = ContentBlock.text (imageLabel x.description)
        :: ContentBlock.image "base64" "image/png" x.data :: imagePairs xs := rfl
    rw [hx, List.length_cons, List.length_cons, ih, List.length_cons]
    ring

/-- Helper for C9: the image data occurring in the pair blocks are
exactly the data of the listed images, in order. -/
theorem imagePairs_filterMap (l : List ImageSnapshot) :
    (imagePairs l).filterMap imageBlockData = l.map ImageSnapshot.data := by
  induction l with
  | nil => rfl
  | cons x xs ih =>
    simp only [imagePairs, List.flatMap_cons, List.filterMap_append, List.map_cons] at ih ⊢
    rw [ih]
    rfl

/-- Helper for C9: the block at even offset `2i` is the label of the
i-th image. -/
theorem imagePairs_getElem_even (l : List ImageSnapshot) (i : Nat) :
    (imagePairs l)[2 * i]? =
      l[i]?.map (fun img => ContentBlock.text (imageLabel img.description)) := by
  induction l generalizing i with
  | nil => simp [imagePairs]
  | cons x xs ih =>
    cases i with
    | zero => simp [imagePairs, List.flatMap_cons]
    | succ j =>
      have h2 : 2 * (j + 1) = 2 * j + 1 + 1 := by ring
      simp only [imagePairs, List.flatMap_cons, List.cons_append, List.singleton_append, h2,
        List.getElem?_cons_succ, List.getElem?_cons_succ]
      exact ih j

/-- Helper for C9: the block at odd offset `2i + 1` is the image block
of the i-th image. -/
theorem imagePairs_getElem_odd (l : List ImageSnapshot) (i : Nat) :
    (imagePairs l)[2 * i + 1]? =
      l[i]?.map (fun img => ContentBlock.image "base64" "image/png" img.data) := by
  induction l generalizing i with
  | nil => simp [imagePairs]
  | cons x xs ih =>
    cases i with
    | zero => simp [imagePairs, List.flatMap_cons]
    | succ j =>
      have h2 : 2 * (j + 1) + 1 = 2 * j + 1 + 1 + 1 := by ring
      simp only [imagePairs, List.flatMap_cons, List.cons_append, List.singleton_append, h2,
        List.getElem?_cons_succ, List.getElem?_cons_succ, List.getElem?_cons_succ]
      exact ih j

/-- Helper for C9: the prompt builder output is the instruction block
followed by the pair blocks of the first three images. -/
theorem buildAnalysisPrompt_eq (d : DesignAnalysisData) (analysisType priority : String) :
    buildAnalysisPrompt d analysisType priority =
      ContentBlock.text (promptText d analysisType priority)
        :: imagePairs ((d.images.getD []).take 3) := by
  unfold buildAnalysisPrompt
  cases hd : d.images with
  | none => simp [imagePairs]
  | some imgs =>
    by_cases h : imgs.length > 0
    · simp [h, imagePairs, Option.getD]
    · have hnil : imgs = [] := List.length_eq_zero.mp (by omega)
      subst hnil
      simp [imagePairs]

/-- Claim C9: the prompt is exactly `1 + 2 * min(n, 3)` blocks — the
instruction-template text block first, then a label block immediately
followed by an image block for each of the first `min(n, 3)` images in
payload order; no image beyond the first three is attached. -/
theorem buildAnalysisPrompt_shape (d : DesignAnalysisData) (analysisType priority : String) :
    (buildAnalysisPrompt d analysisType priority).length
        = 1 + 2 * min (d.images.getD []).length 3 ∧
    (buildAnalysisPrompt d analysisType priority).head?
        = some (ContentBlock.text (promptText d analysisType priority)) ∧
    (buildAnalysisPrompt d analysisType priority).filterMap imageBlockData
        = ((d.images.getD []).take 3).map ImageSnapshot.data ∧
    ∀ i img, (d.images.getD [])[i]? = some img → i < 3 →
      (buildAnalysisPrompt d analysisType priority)[2 * i + 1]?
          = some (ContentBlock.text (imageLabel img.description)) ∧
      (buildAnalysisPrompt d analysisType priority)[2 * i + 2]?
          = some (ContentBlock.image "base64" "image/png" img.data) := by
  rw [buildAnalysisPrompt_eq]
  refine ⟨?_, rfl, imagePairs_filterMap _, fun i img hi h3 => ⟨?_, ?_⟩⟩
  · rw [List.length_cons, imagePairs_length, List.length_take, Nat.min_comm]
    omega
  · rw [List.getElem?_cons_succ, imagePairs_getElem_even]
    simp [List.getElem?_take, h3, hi]
  · have h2 : 2 * i + 2 = 2 * i + 1 + 1 := rfl
    rw [h2, List.getElem?_cons_succ, imagePairs_getElem_odd]
    simp [List.getElem?_take, h3, hi]

/-- Witness for C9 on a payload with one attached image. -/
theorem buildAnalysisPrompt_shape_witness :
    (buildAnalysisPrompt samplePayload "full" "all").length = 1 + 2 * min 1 3 ∧
    (buildAnalysisPrompt samplePayload "full" "all")[1]?
      = some (ContentBlock.text (imageLabel "Full layout")) ∧
    (buildAnalysisPrompt samplePayload "full" "all")[2]?
      = some (ContentBlock.image "base64" "image/png" "QUJD") :=
  ⟨(buildAnalysisPrompt_shape samplePayload "full" "all").1,
   ((buildAnalysisPrompt_shape samplePayload "full" "all").2.2.2 0 sampleImage rfl
     (by decide)).1,
   ((buildAnalysisPrompt_shape samplePayload "full" "all").2.2.2 0 sampleImage rfl
     (by decide)).2⟩
